import Mathlib

/-!
Verification of the layer-composition and store-dispatch core of
`ftl/common/builder.py` (`RuntimeBase`): a shallow embedding of
`AppendLayersIntoImage`, `StoreImage`, and the config splitting done in
`RuntimeBase.__init__`, together with theorems settling the spec claims.

Python-side conventions of the embedding:
- machine state is passed explicitly; in-place mutation of the `args`
  object becomes a function returning the updated record;
- fallible code (exceptions such as `KeyError` on a missing blob lookup or
  `UnboundLocalError` on an empty input) becomes `Option`, with `none`
  modelling a raised exception;
- side effects of `StoreImage` (tarball write, registry push) become an
  explicit list of effect descriptors returned by the function.
-/

namespace FtlBuilder

/-- A layer record held by a composite image: the blob content, the diff
identifier it was appended under, and the config overrides applied at that
append (the arguments of the external `append.Layer` call). -/
structure AppendedLayer where
  blob : String
  diff_id : String
  overrides : String
deriving DecidableEq, Repr

/-- Embedding of a docker image as consumed by `AppendLayersIntoImage`:
`diff_ids` is the image's diff-identifier sequence (`img.diff_ids()`),
`diff_id_to_digest` embeds the `img._diff_id_to_digest` mapping,
`blobs` embeds the digest-to-blob store consulted by `img.blob(...)`,
`config_file` is the raw config manifest (`img.config_file()`), and
`layers` records the layers appended so far (content determining the
image's digest, together with `diff_ids`). -/
structure Image where
  diff_ids : List String
  diff_id_to_digest : List (String × String)
  blobs : List (String × String)
  config_file : String
  layers : List AppendedLayer
deriving DecidableEq, Repr

/-- Association-list lookup, embedding a Python dict lookup that raises
`KeyError` (here: `none`) on a missing key. -/
def alookup : List (String × String) → String → Option String
  | [], _ => none
  | (k, v) :: rest, key => if k = key then some v else alookup rest key

/-- `img._diff_id_to_digest(diff_id)`: map a diff identifier to the digest
of its blob; a missing entry is a fatal lookup failure. -/
def Image.diffIdToDigest (img : Image) (d : String) : Option String :=
  alookup img.diff_id_to_digest d

/-- `img.blob(digest)`: fetch the blob for a digest; a missing entry is a
fatal lookup failure. -/
def Image.blobAt (img : Image) (digest : String) : Option String :=
  alookup img.blobs digest

/-- Modelled from the spec: `ftl_util.CfgDctToOverrides(json.loads(...))`
is outside `src/`; the spec describes ConfigOverrides only as "a value
object derived from a layer's config manifest", so the derivation is kept
abstract as the manifest text itself. No claim depends on its internals. -/
def CfgDctToOverrides (config : String) : String :=
  config

/-- The content digest of an image: per the spec's data model, identity is
derived from the layer sequence (diff identifiers plus appended layer
records). -/
def Image.digest (i : Image) : List String × List AppendedLayer :=
  (i.diff_ids, i.layers)

/-- Embedding of the external `append.Layer(result_image, lyr, diff_id,
overrides)`: returns the accumulator with one more layer, whose
diff-identifier sequence is the accumulator's with `diff_id` appended. -/
def appendLayer (base : Image) (lyr : String) (diff_id : String)
    (overrides : String) : Image :=
  { base with
    diff_ids := base.diff_ids ++ [diff_id]
    layers := base.layers ++ [⟨lyr, diff_id, overrides⟩] }

/-- `lyr_img.GetImage()`: the accessor through which a non-base element's
image is read.  Element 0 is used directly as the accumulator, so input
elements are images and the accessor is the identity. -/
def GetImage (lyr_img : Image) : Image :=
  lyr_img

/-- One iteration of the inner loop of `AppendLayersIntoImage`:
`lyr = img.blob(img._diff_id_to_digest(diff_id))`, then
`overrides = CfgDctToOverrides(json.loads(img.config_file()))`, then
`result_image = append.Layer(result_image, lyr, diff_id, overrides)`. -/
def appendDiffId (img acc : Image) (diff_id : String) : Option Image :=
  match img.diffIdToDigest diff_id with
  | none => none
  | some digest =>
    match img.blobAt digest with
    | none => none
    | some lyr =>
      some (appendLayer acc lyr diff_id (CfgDctToOverrides img.config_file))

/-- The inner `for diff_id in diff_ids` loop of `AppendLayersIntoImage`,
threading the accumulator. -/
def foldAppendDiffIds (img : Image) (acc : Image) :
    List String → Option Image
  | [] => some acc
  | d :: rest =>
    (appendDiffId img acc d).bind (fun acc' => foldAppendDiffIds img acc' rest)

/-- Body of the outer loop for one non-base element: read its image and
append every one of its diff identifiers, in order, onto the accumulator. -/
def appendImageLayers (acc : Image) (lyr_img : Image) : Option Image :=
  foldAppendDiffIds (GetImage lyr_img) acc (GetImage lyr_img).diff_ids

/-- The outer `for i, lyr_img in enumerate(lyr_imgs)` loop, after element 0
has been taken as the initial accumulator. -/
def foldAppendImages : List Image → Image → Option Image
  | [], acc => some acc
  | i :: rest, acc => (appendImageLayers acc i).bind (foldAppendImages rest)

/-- `RuntimeBase.AppendLayersIntoImage(lyr_imgs)`: element 0 becomes the
initial accumulator (`result_image`) and is never re-appended; every
subsequent element's diff identifiers are appended in order.  On an empty
input the Python function raises `UnboundLocalError` (`result_image` is
never assigned), embedded as `none`. -/
def AppendLayersIntoImage : List Image → Option Image
  | [] => none
  | base :: rest => foldAppendImages rest base

/-- A dynamically-typed config field such as `args.entrypoint`: before
construction it is `None` (`unset`) or a raw string; after construction it
may have been overwritten with a token list. -/
inductive StrOrToks where
  | unset : StrOrToks
  | str (s : String) : StrOrToks
  | toks (l : List String) : StrOrToks
deriving DecidableEq, Repr

/-- Split a character list at every single space character, keeping empty
segments (leading, trailing and between consecutive spaces): the behaviour
of Python `s.split(" ")` with an explicit separator. -/
def splitChars : List Char → List (List Char)
  | [] => [[]]
  | c :: rest =>
    if c = ' ' then [] :: splitChars rest
    else
      match splitChars rest with
      | [] => [[c]]
      | t :: ts => (c :: t) :: ts

/-- Embedding of Python `s.split(" ")` on strings. -/
def pySplit (s : String) : List String :=
  (splitChars s.data).map (fun cs => String.mk cs)

/-- One `if args.field: args.field = args.field.split(" ")` statement of
`RuntimeBase.__init__`: an unset (`None`) or empty-string field is falsy
and left as-is; a non-empty string is replaced by its token list; a
non-empty token list would raise `AttributeError` (no `.split` on a
list), embedded as `none`. -/
def splitField : StrOrToks → Option StrOrToks
  | .unset => some .unset
  | .str s => if s = "" then some (.str s) else some (.toks (pySplit s))
  | .toks l => if l.isEmpty then some (.toks l) else none

/-- The recognized build configuration options read by `RuntimeBase`
(`args`). -/
structure BuildConfig where
  base : String
  name : String
  entrypoint : StrOrToks
  exposed_ports : StrOrToks
  tar_base_image_path : Option String
  cache_repository : Option String
  global_cache : Bool
  output_path : Option String
  upload : Bool
deriving DecidableEq, Repr

/-- The effect of `RuntimeBase.__init__` on the caller-supplied `args`
object (the two split assignments): `args.entrypoint` is split first, then
`args.exposed_ports`; in-place mutation is modelled by returning the
updated record, which is the state of the caller's object after
construction. -/
def runtimeBaseInitArgs (args : BuildConfig) : Option BuildConfig :=
  (splitField args.entrypoint).bind (fun e =>
    (splitField args.exposed_ports).bind (fun p =>
      some { args with entrypoint := e, exposed_ports := p }))

/-- A persistence side effect performed by `StoreImage`: either a tarball
archive written at a local path and containing the target reference and
the composite image (`save.tarball` into `tarfile.open(name=output_path)`),
or a registry push of the composite image via `docker_session.Push` with
the given credentials and mount-hint list. -/
inductive StoreEffect where
  | writeTarball (path : String) (target : String) (image : Image) : StoreEffect
  | push (target : String) (creds : String) (mount : List String)
      (image : Image) : StoreEffect
deriving DecidableEq, Repr

/-- Whether an effect is a network push. -/
def StoreEffect.isPush : StoreEffect → Bool
  | .push _ _ _ _ => true
  | .writeTarball _ _ _ => false

/-- Whether an effect writes a local file. -/
def StoreEffect.isWrite : StoreEffect → Bool
  | .writeTarball _ _ _ => true
  | .push _ _ _ _ => false

/-- The fields of a constructed `RuntimeBase` consulted by `StoreImage`:
the (already split) args, and the resolved base reference
(`self._base_name`), target reference (`self._target_image`) and target
credentials (`self._target_creds`). -/
structure RuntimeBase where
  args : BuildConfig
  base_name : String
  target_image : String
  target_creds : String
deriving DecidableEq, Repr

/-- Python truthiness of an optional string field: `None` and the empty
string are falsy. -/
def optStrTruthy : Option String → Bool
  | none => false
  | some s => s != ""

/-- `RuntimeBase.StoreImage(result_image)`: if `self._args.output_path` is
truthy, write a tarball containing the target reference and the composite
image at exactly that path and return (no push); otherwise, if
`self._args.upload` is truthy, push the composite image to the target
reference with the target credentials and `mount=[self._base_name]`;
otherwise do nothing.  The returned list is the sequence of persistence
effects performed. -/
def StoreImage (rb : RuntimeBase) (result_image : Image) : List StoreEffect :=
  if optStrTruthy rb.args.output_path then
    [StoreEffect.writeTarball (rb.args.output_path.getD "") rb.target_image
      result_image]
  else if rb.args.upload then
    [StoreEffect.push rb.target_image rb.target_creds [rb.base_name]
      result_image]
  else []

/-- The hypothesis of claim C10: the string has a leading space, a
trailing space, or two consecutive spaces somewhere. -/
def hasSpaceAnomaly (s : String) : Prop :=
  (∃ r, s.data = ' ' :: r) ∨
  (∃ a, s.data = a ++ [' ']) ∨
  (∃ a b, s.data = a ++ ' ' :: ' ' :: b)

/-- Concrete base image with diff-identifier sequence `["d0"]`. -/
def exBase : Image :=
  { diff_ids := ["d0"]
    diff_id_to_digest := []
    blobs := []
    config_file := "cfg0"
    layers := [] }

/-- Concrete layer image with diff-identifier sequence `["d1", "d2"]` and
resolvable blobs. -/
def exL1 : Image :=
  { diff_ids := ["d1", "d2"]
    diff_id_to_digest := [("d1", "g1"), ("d2", "g2")]
    blobs := [("g1", "B1"), ("g2", "B2")]
    config_file := "cfg1"
    layers := [] }

/-- Concrete layer image with diff-identifier sequence `["d3"]` and a
resolvable blob. -/
def exL2 : Image :=
  { diff_ids := ["d3"]
    diff_id_to_digest := [("d3", "g3")]
    blobs := [("g3", "B3")]
    config_file := "cfg2"
    layers := [] }

/-- Concrete config whose entrypoint and exposed ports are space-delimited
strings. -/
def cfgTokens : BuildConfig :=
  { base := "gcr.io/base:tag"
    name := "gcr.io/target:tag"
    entrypoint := .str "a b c"
    exposed_ports := .str "8080 9090"
    tar_base_image_path := none
    cache_repository := none
    global_cache := false
    output_path := none
    upload := true }

/-- Concrete config whose entrypoint contains consecutive spaces. -/
def cfgAnomaly : BuildConfig :=
  { cfgTokens with entrypoint := .str "a  b", exposed_ports := .unset }

/-- Constructed builder state with `output_path` and `upload` both set:
archive mode must win. -/
def rbArchive : RuntimeBase :=
  { args := { cfgTokens with output_path := some "/tmp/out.tar", upload := true }
    base_name := "gcr.io/base:tag"
    target_image := "gcr.io/target:tag"
    target_creds := "target-creds" }

/-- Constructed builder state with `upload` set and `output_path` unset. -/
def rbUpload : RuntimeBase :=
  { rbArchive with args := { cfgTokens with output_path := none, upload := true } }

/-- Constructed builder state with neither `output_path` nor `upload`
set. -/
def rbNoOutput : RuntimeBase :=
  { rbArchive with args := { cfgTokens with output_path := none, upload := false } }

end FtlBuilder

namespace FtlBuilder

theorem appendDiffId_diff_ids (img acc : Image) (d : String) (res : Image)
    (h : appendDiffId img acc d = some res) :
    res.diff_ids = acc.diff_ids ++ [d] := by
  unfold appendDiffId at h
  split at h
  · exact absurd h (by simp)
  · split at h
    · exact absurd h (by simp)
    · simp only [Option.some.injEq] at h
      rw [← h]
      rfl

theorem foldAppendDiffIds_diff_ids (img : Image) (l : List String) :
    ∀ (acc res : Image), foldAppendDiffIds img acc l = some res →
      res.diff_ids = acc.diff_ids ++ l := by
  induction l with
  | nil =>
    intro acc res h
    simp only [foldAppendDiffIds, Option.some.injEq] at h
    simp [← h]
  | cons d rest ih =>
    intro acc res h
    simp only [foldAppendDiffIds] at h
    rcases Option.bind_eq_some.mp h with ⟨acc', hd, hrest⟩
    rw [ih acc' res hrest, appendDiffId_diff_ids img acc d acc' hd]
    simp

theorem appendImageLayers_diff_ids (acc lyr_img res : Image)
    (h : appendImageLayers acc lyr_img = some res) :
    res.diff_ids = acc.diff_ids ++ lyr_img.diff_ids :=
  foldAppendDiffIds_diff_ids (GetImage lyr_img) (GetImage lyr_img).diff_ids
    acc res h

theorem foldAppendImages_diff_ids (rest : List Image) :
    ∀ (acc res : Image), foldAppendImages rest acc = some res →
      res.diff_ids = acc.diff_ids ++ (rest.map Image.diff_ids).flatten := by
  induction rest with
  | nil =>
    intro acc res h
    simp only [foldAppendImages, Option.some.injEq] at h
    simp [← h]
  | cons i rest ih =>
    intro acc res h
    simp only [foldAppendImages] at h
    rcases Option.bind_eq_some.mp h with ⟨acc', hi, hrest⟩
    rw [ih acc' res hrest, appendImageLayers_diff_ids acc i acc' hi]
    simp

/-- Claim C1: for every input sequence on which `AppendLayersIntoImage`
returns an image (in particular the sequence is non-empty), the result's
diff-identifier sequence is the concatenation, in append order, of each
input element's own diff-identifier sequence, with element 0 the initial
accumulator. -/
theorem appendLayers_concat_diff_ids (lyr_imgs : List Image) (res : Image)
    (h : AppendLayersIntoImage lyr_imgs = some res) :
    res.diff_ids = (lyr_imgs.map Image.diff_ids).flatten := by
  cases lyr_imgs with
  | nil => exact absurd h (by simp [AppendLayersIntoImage])
  | cons base rest =>
    have := foldAppendImages_diff_ids rest base res h
    simpa using this

/-- Claim C5: `AppendLayersIntoImage` on the empty input sequence fails
(Python raises `UnboundLocalError`; embedded as `none`) rather than
returning an image. -/
theorem appendLayers_empty_fails : AppendLayersIntoImage [] = none :=
  rfl

/-- Claim C6: a single-element input is returned unchanged: the result is
element 0 itself, with no layer appended, no manifest parsed and no blob
retrieved (the theorem holds for every image, including those whose lookup
tables are empty, so no lookup can have been performed). -/
theorem appendLayers_singleton_identity (img : Image) :
    AppendLayersIntoImage [img] = some img :=
  rfl

/-- Witness for claim C1: three concrete layer images with diff-identifier
sequences `["d0"]`, `["d1", "d2"]` and `["d3"]` compose to an image with
diff-identifier sequence exactly `["d0", "d1", "d2", "d3"]`. -/
theorem appendLayers_concat_diff_ids_witness :
    ((AppendLayersIntoImage [exBase, exL1, exL2]).getD exBase).diff_ids
      = ["d0", "d1", "d2", "d3"] := by
  have h := appendLayers_concat_diff_ids [exBase, exL1, exL2]
    ((AppendLayersIntoImage [exBase, exL1, exL2]).getD exBase) (by decide)
  exact h.trans (by decide)

/-- Claim C8: layer composition is not commutative: for the concrete input
`[exBase, exL1, exL2]`, swapping the two non-base elements changes both
the composite's diff-identifier sequence and its digest. -/
theorem appendLayers_not_commutative :
    (AppendLayersIntoImage [exBase, exL1, exL2]).map Image.diff_ids
      ≠ (AppendLayersIntoImage [exBase, exL2, exL1]).map Image.diff_ids ∧
    (AppendLayersIntoImage [exBase, exL1, exL2]).map Image.digest
      ≠ (AppendLayersIntoImage [exBase, exL2, exL1]).map Image.digest := by
  exact ⟨by decide, by decide⟩

/-- Claim C2: when `output_path` holds a (non-empty) path, `StoreImage`
performs exactly one effect: a tarball write at that path containing the
target reference and the composite image; no push happens even when
`upload` is also set (no hypothesis on `upload` appears). -/
theorem storeImage_archive_mode (rb : RuntimeBase) (img : Image) (p : String)
    (hp : rb.args.output_path = some p) (hne : p ≠ "") :
    StoreImage rb img = [StoreEffect.writeTarball p rb.target_image img] ∧
    ∀ e ∈ StoreImage rb img, e.isPush = false := by
  have ht : optStrTruthy (some p) = true := by
    simp [optStrTruthy, hne]
  constructor
  · simp [StoreImage, hp, ht]
  · intro e hmem
    simp [StoreImage, hp, ht] at hmem
    subst hmem
    rfl

/-- Witness for claim C2: with `output_path = "/tmp/out.tar"` and `upload`
also set, `StoreImage` writes the tarball and performs no push. -/
theorem storeImage_archive_mode_witness :
    StoreImage rbArchive exBase
      = [StoreEffect.writeTarball "/tmp/out.tar" rbArchive.target_image exBase] ∧
    ∀ e ∈ StoreImage rbArchive exBase, e.isPush = false :=
  storeImage_archive_mode rbArchive exBase "/tmp/out.tar" rfl (by decide)

/-- Claim C3: when `upload` is set and `output_path` is unset, `StoreImage`
performs exactly one effect: a push of the composite image to the target
reference using the target's resolved credentials and the mount-hint list
`[base_name]`; no local file is written. -/
theorem storeImage_upload_mode (rb : RuntimeBase) (img : Image)
    (hout : rb.args.output_path = none) (hup : rb.args.upload = true) :
    StoreImage rb img
      = [StoreEffect.push rb.target_image rb.target_creds [rb.base_name] img] ∧
    ∀ e ∈ StoreImage rb img, e.isWrite = false := by
  constructor
  · simp [StoreImage, hout, optStrTruthy, hup]
  · intro e hmem
    simp [StoreImage, hout, optStrTruthy, hup] at hmem
    subst hmem
    rfl

/-- Witness for claim C3: with `upload` set and `output_path` unset,
`StoreImage` pushes with the target credentials and the base mount hint
and writes no file. -/
theorem storeImage_upload_mode_witness :
    StoreImage rbUpload exBase
      = [StoreEffect.push rbUpload.target_image rbUpload.target_creds
          [rbUpload.base_name] exBase] ∧
    ∀ e ∈ StoreImage rbUpload exBase, e.isWrite = false :=
  storeImage_upload_mode rbUpload exBase rfl rfl

/-- Claim C4: when neither `output_path` nor `upload` is set, `StoreImage`
performs no persistence effect at all and returns normally (the function
is total and raises nothing in this embedding). -/
theorem storeImage_no_output (rb : RuntimeBase) (img : Image)
    (hout : rb.args.output_path = none) (hup : rb.args.upload = false) :
    StoreImage rb img = [] := by
  simp [StoreImage, hout, optStrTruthy, hup]

/-- Witness for claim C4: a concrete builder state with neither flag set
yields no effect. -/
theorem storeImage_no_output_witness : StoreImage rbNoOutput exBase = [] :=
  storeImage_no_output rbNoOutput exBase rfl rfl

/-- Claim C7: during construction, a present non-empty entrypoint string is
split on single spaces into its ordered token sequence, and the same rule
applies to `exposed_ports`; an unset field stays unset and an empty string
stays an (unsplit) empty string — neither becomes a token sequence. -/
theorem initArgs_split_rules (args args' : BuildConfig)
    (h : runtimeBaseInitArgs args = some args') :
    (∀ s, args.entrypoint = .str s → s ≠ "" →
      args'.entrypoint = .toks (pySplit s)) ∧
    (args.entrypoint = .unset → args'.entrypoint = .unset) ∧
    (args.entrypoint = .str "" → args'.entrypoint = .str "") ∧
    (∀ s, args.exposed_ports = .str s → s ≠ "" →
      args'.exposed_ports = .toks (pySplit s)) ∧
    (args.exposed_ports = .unset → args'.exposed_ports = .unset) ∧
    (args.exposed_ports = .str "" → args'.exposed_ports = .str "") := by
  unfold runtimeBaseInitArgs at h
  rcases Option.bind_eq_some.mp h with ⟨e, he, h2⟩
  rcases Option.bind_eq_some.mp h2 with ⟨p, hp, h3⟩
  simp only [Option.some.injEq] at h3
  subst h3
  refine ⟨?_, ?_, ?_, ?_, ?_, ?_⟩
  · intro s hs hne
    rw [hs] at he
    simp only [splitField, if_neg hne, Option.some.injEq] at he
    subst he
    rfl
  · intro hs
    rw [hs] at he
    simp only [splitField, Option.some.injEq] at he
    subst he
    rfl
  · intro hs
    rw [hs] at he
    simp [splitField] at he
    subst he
    rfl
  · intro s hs hne
    rw [hs] at hp
    simp only [splitField, if_neg hne, Option.some.injEq] at hp
    subst hp
    rfl
  · intro hs
    rw [hs] at hp
    simp only [splitField, Option.some.injEq] at hp
    subst hp
    rfl
  · intro hs
    rw [hs] at hp
    simp [splitField] at hp
    subst hp
    rfl

/-- Witness for claim C7: the concrete entrypoint `"a b c"` is split into
`["a", "b", "c"]`. -/
theorem initArgs_split_rules_witness :
    ((runtimeBaseInitArgs cfgTokens).getD cfgTokens).entrypoint
      = StrOrToks.toks ["a", "b", "c"] := by
  have h := initArgs_split_rules cfgTokens
    ((runtimeBaseInitArgs cfgTokens).getD cfgTokens) (by decide)
  exact (h.1 "a b c" rfl (by decide)).trans (by decide)

/-- Claim C9: construction mutates the caller-supplied args object in
place: a non-empty entrypoint (resp. exposed_ports) string is overwritten
with its split token list — observably different from the original value —
while every other field of the args object is left unchanged. -/
theorem initArgs_mutates_only_split_fields (args args' : BuildConfig)
    (h : runtimeBaseInitArgs args = some args') :
    args'.base = args.base ∧
    args'.name = args.name ∧
    args'.tar_base_image_path = args.tar_base_image_path ∧
    args'.cache_repository = args.cache_repository ∧
    args'.global_cache = args.global_cache ∧
    args'.output_path = args.output_path ∧
    args'.upload = args.upload ∧
    (∀ s, args.entrypoint = .str s → s ≠ "" →
      args'.entrypoint = .toks (pySplit s) ∧
      args'.entrypoint ≠ args.entrypoint) ∧
    (∀ s, args.exposed_ports = .str s → s ≠ "" →
      args'.exposed_ports = .toks (pySplit s) ∧
      args'.exposed_ports ≠ args.exposed_ports) := by
  unfold runtimeBaseInitArgs at h
  rcases Option.bind_eq_some.mp h with ⟨e, he, h2⟩
  rcases Option.bind_eq_some.mp h2 with ⟨p, hp, h3⟩
  simp only [Option.some.injEq] at h3
  subst h3
  refine ⟨rfl, rfl, rfl, rfl, rfl, rfl, rfl, ?_, ?_⟩
  · intro s hs hne
    rw [hs] at he
    simp only [splitField, if_neg hne, Option.some.injEq] at he
    subst he
    exact ⟨rfl, by simp [hs]⟩
  · intro s hs hne
    rw [hs] at hp
    simp only [splitField, if_neg hne, Option.some.injEq] at hp
    subst hp
    exact ⟨rfl, by simp [hs]⟩

/-- Witness for claim C9: after construction on a concrete config, the
`upload` field is untouched while the entrypoint field now differs from
the string the caller supplied. -/
theorem initArgs_mutates_only_split_fields_witness :
    ((runtimeBaseInitArgs cfgTokens).getD cfgTokens).upload
        = cfgTokens.upload ∧
    ((runtimeBaseInitArgs cfgTokens).getD cfgTokens).entrypoint
        ≠ cfgTokens.entrypoint := by
  have h := initArgs_mutates_only_split_fields cfgTokens
    ((runtimeBaseInitArgs cfgTokens).getD cfgTokens) (by decide)
  exact ⟨h.2.2.2.2.2.2.1,
    (h.2.2.2.2.2.2.2.1 "a b c" rfl (by decide)).2⟩

theorem splitChars_cons_space (rest : List Char) :
    splitChars (' ' :: rest) = [] :: splitChars rest := by
  simp [splitChars]

theorem splitChars_cons_nonspace (c : Char) (hc : c ≠ ' ') (rest : List Char) :
    splitChars (c :: rest) =
      match splitChars rest with
      | [] => [[c]]
      | t :: ts => (c :: t) :: ts := by
  simp [splitChars, hc]

theorem splitChars_ne_nil (cs : List Char) : splitChars cs ≠ [] := by
  cases cs with
  | nil => simp [splitChars]
  | cons c rest =>
    by_cases hc : c = ' '
    · subst hc
      rw [splitChars_cons_space]
      exact List.cons_ne_nil _ _
    · rw [splitChars_cons_nonspace c hc]
      cases h : splitChars rest with
      | nil => exact List.cons_ne_nil _ _
      | cons t ts => exact List.cons_ne_nil _ _

theorem splitChars_append_space (a b : List Char) :
    splitChars (a ++ ' ' :: b) = splitChars a ++ splitChars b := by
  induction a with
  | nil =>
    rw [List.nil_append, splitChars_cons_space]
    rfl
  | cons c a ih =>
    by_cases hc : c = ' '
    · subst hc
      rw [List.cons_append, splitChars_cons_space, ih, splitChars_cons_space]
      rfl
    · rw [List.cons_append, splitChars_cons_nonspace c hc,
        splitChars_cons_nonspace c hc, ih]
      cases h : splitChars a with
      | nil => exact absurd h (splitChars_ne_nil a)
      | cons t ts => rfl

theorem pySplit_has_empty_token (s : String) (hs : hasSpaceAnomaly s) :
    "" ∈ pySplit s := by
  have hmem : [] ∈ splitChars s.data := by
    rcases hs with ⟨r, hr⟩ | ⟨a, ha⟩ | ⟨a, b, hab⟩
    · rw [hr]
      simp only [splitChars, if_pos rfl]
      exact List.mem_cons_self _ _
    · rw [ha, splitChars_append_space]
      exact List.mem_append_right _ (by simp [splitChars])
    · rw [hab, splitChars_append_space]
      refine List.mem_append_right _ ?_
      simp only [splitChars, if_pos rfl]
      exact List.mem_cons_self _ _
  exact List.mem_map_of_mem (fun cs => String.mk cs) hmem

/-- Claim C10: when an entrypoint or exposed_ports string has a leading
space, a trailing space, or consecutive spaces, the construction-time
split keeps the resulting empty-string tokens: they are not filtered out
of the stored token list. -/
theorem initArgs_split_keeps_empty_tokens (args args' : BuildConfig)
    (s : String) (h : runtimeBaseInitArgs args = some args')
    (hs : hasSpaceAnomaly s) :
    (args.entrypoint = .str s →
      args'.entrypoint = .toks (pySplit s) ∧ "" ∈ pySplit s) ∧
    (args.exposed_ports = .str s →
      args'.exposed_ports = .toks (pySplit s) ∧ "" ∈ pySplit s) := by
  have hne : s ≠ "" := by
    intro he
    subst he
    have hd : ("" : String).data = [] := rfl
    rcases hs with ⟨r, hr⟩ | ⟨a, ha⟩ | ⟨a, b, hab⟩
    · rw [hd] at hr
      exact (List.cons_ne_nil _ _) hr.symm
    · rw [hd] at ha
      simp at ha
    · rw [hd] at hab
      simp at hab
  unfold runtimeBaseInitArgs at h
  rcases Option.bind_eq_some.mp h with ⟨e, he, h2⟩
  rcases Option.bind_eq_some.mp h2 with ⟨p, hp, h3⟩
  simp only [Option.some.injEq] at h3
  subst h3
  constructor
  · intro hent
    rw [hent] at he
    simp only [splitField, if_neg hne, Option.some.injEq] at he
    subst he
    exact ⟨rfl, pySplit_has_empty_token s hs⟩
  · intro hexp
    rw [hexp] at hp
    simp only [splitField, if_neg hne, Option.some.injEq] at hp
    subst hp
    exact ⟨rfl, pySplit_has_empty_token s hs⟩

/-- Witness for claim C10: the concrete entrypoint `"a  b"` (two spaces)
is stored as `["a", "", "b"]`, with the empty token kept. -/
theorem initArgs_split_keeps_empty_tokens_witness :
    ((runtimeBaseInitArgs cfgAnomaly).getD cfgAnomaly).entrypoint
      = StrOrToks.toks ["a", "", "b"] ∧ ("" : String) ∈ ["a", "", "b"] := by
  have h := initArgs_split_keeps_empty_tokens cfgAnomaly
    ((runtimeBaseInitArgs cfgAnomaly).getD cfgAnomaly) "a  b" (by decide)
    (Or.inr (Or.inr ⟨['a'], ['b'], by decide⟩))
  exact ⟨(h.1 rfl).1.trans (by decide), by decide⟩

end FtlBuilder
